import Mathlib

/-!
Verification of the audit execution engine of the `cisco-netaudit/flask-app`
repository, a shallow embedding of `src/app/modules/audit.py` (class
`AuditService`) together with proofs settling the frozen claims about it.

Modelling conventions:
* Python strings are `String`; a value that may be `None` is `Option String`.
* Python truthiness of an optional string (`if session['jumphost_ip']:`,
  `if raw.get(key):`) is `pyTruthy`: `None` and `""` are falsy.
* The network is an explicit environment `Env`: `GenericHandler` construction
  succeeds iff `Env.connectOk device`; `conn.sendCommand cmd` returns
  `Env.output conn.hostname cmd`; reverse DNS (`socket.gethostbyaddr`) is
  `Env.dns` with `none` standing for `socket.herror`; `conn.base_prompt` is
  `Env.basePrompt conn.hostname`.
* Python dicts used as caches / result maps are association lists with
  first-match lookup; an update prepends, which shadows older entries and so
  has the same lookup semantics as a dict assignment.
* The drive loop of `audit_task` (a `while` loop) is modelled with explicit
  fuel; exhausting the fuel (`CheckOut.fuelOut`) corresponds to the Python
  loop still running.
* Exceptions are explicit: inside a check's drive loop the only raising
  operations reachable in the model are `sendCommand`/`disconnect` invoked on
  a `None` connection (an `AttributeError` after a failed cross-device
  reconnect); they surface as `CheckOut.raised`, caught by `audit_task`'s
  per-check `try`.  The final unguarded `conn.disconnect()` of `audit_task`
  surfaces as `TaskOut.raised`, an exception escaping the task.
* Ghost events (`Ev`) record connects, sends, disconnects, handler
  invocations and fact gathering, so that claims counting sends and opened
  connections can be stated; they alter no behaviour.
* Timestamps (`last_audit`) and logging output carry no information relevant
  to any claim and are omitted from the result record.
-/

set_option maxHeartbeats 1000000

namespace NetAudit

/-- Python truthiness of a string-or-None value: `None` and `""` are falsy. -/
def pyTruthy : Option String → Bool
  | none => false
  | some s => !(s == "")

/-- Session credentials, the shape produced by `routes/quickaudit.py`:
`network_username`, `network_password` are present, the three jumphost
fields come from `_session.get(...)` and may be `None`. -/
structure Session where
  network_username : String
  network_password : String
  jumphost_ip : Option String
  jumphost_username : Option String
  jumphost_password : Option String
deriving Repr, DecidableEq

/-- The proxy dict built at `audit.py:74-78`; field values are passed through
from the session unexamined. -/
structure Proxy where
  hostname : Option String
  username : Option String
  password : Option String
deriving Repr, DecidableEq

/-- The proxy construction of `obt_conn` (`audit.py:74-78`): the dict is built
iff `session['jumphost_ip']` is truthy; the username and password fields are
not consulted by the condition. -/
def buildProxy (session : Session) : Option Proxy :=
  if pyTruthy session.jumphost_ip then
    some ⟨session.jumphost_ip, session.jumphost_username, session.jumphost_password⟩
  else none

/-- A live `GenericHandler` connection: the device it is connected to and the
proxy it was opened with. -/
structure Conn where
  hostname : String
  proxy : Option Proxy
deriving Repr, DecidableEq

/-- One pending request of a check: the `(device, command, handler)` triple
read from the check's `REQUESTS` dict (`audit.py:177-181`). -/
structure Request where
  device : String
  command : String
  handler : String
deriving Repr, DecidableEq

/-- A check's `RESULTS` dict: `{status, observation, comments}`. -/
structure CheckResult where
  status : Nat
  observation : String
  comments : List String
deriving Repr, DecidableEq

/-- The pre-populated per-check result shell of `audit.py:155`:
`{"status": 0, "observation": "", "comments": []}` (status 0 = NOT_RUN,
per `AUDIT_STATUS_CODES` in `utils/constants.py`). -/
def initCheckResult : CheckResult := ⟨0, "", []⟩

/-- A loaded check instance (`CHECK_CLASS(device, context)`): its private
state type, the fresh state built by the constructor, the `REQUESTS` reading
(`none` models a falsy `REQUESTS`, i.e. `None` or `{}`), the handler
dispatch `getattr(inst, req.handler)(req.device, req.command, output)`, and
the `RESULTS` reading. -/
structure CheckDef where
  St : Type
  init : St
  requests : St → Option Request
  handle : St → Request → String → St
  results : St → CheckResult

/-- Kind tag distinguishing which branch of the drive loop issued a send:
the same-device branch (`audit.py:200`) or the cross-device branch
(`audit.py:194`). -/
inductive SendKind where
  | sameDev
  | crossDev
deriving Repr, DecidableEq

/-- Ghost events recording the externally visible actions of an audit task. -/
inductive Ev where
  | connect (device : String) (ok : Bool)
  | send (connTo : String) (command : String) (kind : SendKind)
  | disconnect (device : String)
  | handled (req : Request) (output : String)
  | gather
deriving Repr, DecidableEq

/-- The network / plugin environment an audit runs against. -/
structure Env where
  connectOk : String → Bool
  output : String → String → String
  dns : String → Option String
  basePrompt : String → String
  checks : String → Option CheckDef
  gatherers : List String
  gatherFacts : String → List (String × String)

/-- `obt_conn` (`audit.py:63-92`): builds the optional proxy, then constructs
a `GenericHandler`; any exception is caught and `None` returned. -/
def obt_conn (env : Env) (device : String) (session : Session) : Option Conn :=
  if env.connectOk device then some ⟨device, buildProxy session⟩ else none

/-- Split a character list on a separator, keeping empty groups (the
behaviour of `str.split(sep)` / `String.splitOn` used to model the regexes
of `_get_device_fqdn`). -/
def splitChars (sep : Char) : List Char → List (List Char)
  | [] => [[]]
  | c :: cs =>
    if c = sep then [] :: splitChars sep cs
    else
      match splitChars sep cs with
      | g :: gs => (c :: g) :: gs
      | [] => [[c]]

/-- One group of the dotted-quad regex: 1 to 3 decimal digits (`\d{1,3}`). -/
def quadPart (g : List Char) : Bool :=
  decide (1 ≤ g.length) && decide (g.length ≤ 3) && g.all Char.isDigit

/-- The device-id test of `_get_device_fqdn` (`audit.py:123`): the regex
`^\d{1,3}(\.\d{1,3}){3}$`, i.e. exactly four dot-separated groups of one to
three digits.  (Python's `$` would also tolerate one trailing newline; device
ids with embedded newlines play no part in any claim.) -/
def isDottedQuad (device : String) : Bool :=
  match splitChars '.' device.data with
  | [a, b, c, d] => quadPart a && quadPart b && quadPart c && quadPart d
  | _ => false

/-- Whitespace characters `\s` can match inside a single line. -/
def isWsChar (c : Char) : Bool :=
  c = ' ' || c = '\t' || c = '\r' || c = '\x0b' || c = '\x0c'

/-- Match one configuration line against `^ip domain[- ]name\s+(\S+)`
(`audit.py:130`), returning the captured domain. -/
def domainLineMatch (line : List Char) : Option (List Char) :=
  match line with
  | 'i' :: 'p' :: ' ' :: 'd' :: 'o' :: 'm' :: 'a' :: 'i' :: 'n' :: sep ::
      'n' :: 'a' :: 'm' :: 'e' :: rest =>
    if sep = '-' || sep = ' ' then
      let ws := rest.takeWhile isWsChar
      let tok := (rest.dropWhile isWsChar).takeWhile (fun c => !(isWsChar c))
      if ws ≠ [] ∧ tok ≠ [] then some tok else none
    else none
  | _ => none

/-- `re.search(r'^ip domain[- ]name\s+(\S+)', out, re.M)` over the command
output: the first line (in order) that matches, with its captured group. -/
def findDomainName (out : String) : Option String :=
  ((splitChars '\n' out.data).findSome? domainLineMatch).map (fun l => ⟨l⟩)

/-- The probe command `_get_device_fqdn` sends (`audit.py:129`). -/
def domainProbeCmd : String := "show running-config | include domain"

/-- `_get_device_fqdn` (`audit.py:119-136`): for a dotted-quad id try reverse
DNS; on `herror` with a live connection probe the running configuration for a
domain name and compose prompt.domain, else return the bare prompt; with no
connection return the literal id; non-matching ids pass through unchanged. -/
def get_device_fqdn (env : Env) (device : String) (conn : Option Conn) : String :=
  if isDottedQuad device then
    match env.dns device with
    | some name => name
    | none =>
      match conn with
      | some c =>
        match findDomainName (env.output c.hostname domainProbeCmd) with
        | some d => env.basePrompt c.hostname ++ "." ++ d
        | none => env.basePrompt c.hostname
      | none => device
  else device

/-- The per-device-audit raw command cache `self.results[device]["raw"]` and
other string-keyed dicts: association lists with first-match lookup. -/
abbrev Raw := List (String × String)

/-- Dict lookup `m.get(k)`. -/
def mapGet {α : Type _} (m : List (String × α)) (k : String) : Option α :=
  (m.find? (fun p => p.1 == k)).map Prod.snd

/-- Dict assignment `m[k] = v`: prepending shadows any older entry, which
matches dict-update lookup semantics. -/
def mapSet {α : Type _} (m : List (String × α)) (k : String) (v : α) :
    List (String × α) :=
  (k, v) :: m

/-- The truthiness-guarded cache read `if raw.get(key):` of
`audit.py:189,197`: an entry whose value is `""` counts as absent. -/
def rawGetTruthy (raw : Raw) (k : String) : Option String :=
  match mapGet raw k with
  | none => none
  | some v => if v = "" then none else some v

/-- The cache key a request is stored under (`audit.py:195,201`): the bare
command for a request targeting the audited device, `"<target>:<command>"`
for a cross-device request. -/
def reqKey (device : String) (req : Request) : String :=
  if req.device = device then req.command else req.device ++ ":" ++ req.command

/-- The result of processing one pending request (lines 186-201 of
`audit.py`): `out = some o` is the captured output handed to the handler;
`out = none` means an exception was raised (an `AttributeError` from calling
`sendCommand`/`disconnect` on a `None` connection after a failed cross-device
reconnect), to be caught by `audit_task`'s per-check `try`. -/
structure ProcRes where
  out : Option String
  conn : Option Conn
  raw : Raw
  evs : List Ev
deriving Repr

/-- Lines 186-201 of `audit.py`: serve the request from the raw cache when
the stored text is truthy, otherwise execute it — on the current connection
for a same-device request, or by closing the current connection and opening
one to the target for a cross-device request — and (re)store the output
under the request's key. -/
def processReq (env : Env) (device : String) (session : Session)
    (req : Request) (conn : Option Conn) (raw : Raw) : ProcRes :=
  if req.device ≠ device then
    let k := req.device ++ ":" ++ req.command
    match rawGetTruthy raw k with
    | some out => ⟨some out, conn, mapSet raw k out, []⟩
    | none =>
      match conn with
      | none => ⟨none, none, raw, []⟩
      | some c0 =>
        match obt_conn env req.device session with
        | none => ⟨none, none, raw, [Ev.disconnect c0.hostname, Ev.connect req.device false]⟩
        | some c1 =>
          let out := env.output c1.hostname req.command
          ⟨some out, some c1, mapSet raw k out,
            [Ev.disconnect c0.hostname, Ev.connect req.device true,
             Ev.send c1.hostname req.command SendKind.crossDev]⟩
  else
    match rawGetTruthy raw req.command with
    | some out => ⟨some out, conn, mapSet raw req.command out, []⟩
    | none =>
      match conn with
      | none => ⟨none, none, raw, []⟩
      | some c0 =>
        let out := env.output c0.hostname req.command
        ⟨some out, conn, mapSet raw req.command out,
          [Ev.send c0.hostname req.command SendKind.sameDev]⟩

/-- How one check's drive loop ended: `done` via a falsy `REQUESTS` or the
repeat-guard; `raised` via an in-loop exception (caught by the per-check
`try`); `fuelOut` when the model's fuel ran out, i.e. the Python loop is
still running. -/
inductive CheckOut (St : Type) where
  | done (st : St)
  | raised
  | fuelOut (st : St)

/-- `true` exactly on `CheckOut.fuelOut`. -/
def CheckOut.isFuelOut {St : Type} : CheckOut St → Bool
  | .fuelOut _ => true
  | _ => false

/-- State returned by one check's drive loop: outcome, the (possibly
replaced or lost) connection, the raw cache, and the events it emitted. -/
structure CheckLoopRes (St : Type) where
  out : CheckOut St
  conn : Option Conn
  raw : Raw
  log : List Ev

/-- The drive loop of `audit_task` (`audit.py:174-204`) for one check
instance: while `REQUESTS` is truthy, read the `(device, command, handler)`
triple, stop if it equals the one just consumed (repeat-guard), otherwise
process the request, invoke the named handler with
`(req.device, req.command, output)`, and remember the request just served. -/
def runCheckLoop (env : Env) (device : String) (session : Session)
    (c : CheckDef) :
    Nat → c.St → Option Request → Option Conn → Raw → CheckLoopRes c.St
  | 0, st, _, conn, raw => ⟨CheckOut.fuelOut st, conn, raw, []⟩
  | fuel + 1, st, last, conn, raw =>
    match c.requests st with
    | none => ⟨CheckOut.done st, conn, raw, []⟩
    | some req =>
      if some req = last then ⟨CheckOut.done st, conn, raw, []⟩
      else
        let p := processReq env device session req conn raw
        match p.out with
        | none => ⟨CheckOut.raised, p.conn, p.raw, p.evs⟩
        | some out =>
          let r := runCheckLoop env device session c fuel
            (c.handle st req out) (some req) p.conn p.raw
          ⟨r.out, r.conn, r.raw, p.evs ++ [Ev.handled req out] ++ r.log⟩

/-- Dict assignment into the pre-populated checks map
(`self.results[device]["checks"][check_file] = ...`). -/
def checksSet (m : List (String × CheckResult)) (k : String) (v : CheckResult) :
    List (String × CheckResult) :=
  m.map (fun p => if p.1 = k then (k, v) else p)

/-- Result of running all checks of one device (`audit.py:171-209`). -/
structure ChecksRes where
  checks : List (String × CheckResult)
  conn : Option Conn
  raw : Raw
  log : List Ev
  hung : Bool

/-- The per-check loop of `audit_task` (`audit.py:171-209`): for each check
file in list order, load a fresh instance (a load failure is caught and the
pre-populated result kept), drive it, and on success store its `RESULTS`; an
exception inside the drive loop is caught, keeping the last-known result;
connection and cache mutations persist across checks.  `hung = true`
records that some check's loop was still running when the fuel ran out. -/
def runChecks (env : Env) (device : String) (session : Session) (fuel : Nat) :
    List String → List (String × CheckResult) → Option Conn → Raw → ChecksRes
  | [], checks, conn, raw => ⟨checks, conn, raw, [], false⟩
  | f :: rest, checks, conn, raw =>
    match env.checks f with
    | none => runChecks env device session fuel rest checks conn raw
    | some c =>
      let lr := runCheckLoop env device session c fuel c.init none conn raw
      match lr.out with
      | CheckOut.done st =>
        let r := runChecks env device session fuel rest
          (checksSet checks f (c.results st)) lr.conn lr.raw
        ⟨r.checks, r.conn, r.raw, lr.log ++ r.log, r.hung⟩
      | CheckOut.raised =>
        let r := runChecks env device session fuel rest checks lr.conn lr.raw
        ⟨r.checks, r.conn, r.raw, lr.log ++ r.log, r.hung⟩
      | CheckOut.fuelOut _ => ⟨checks, lr.conn, lr.raw, lr.log, true⟩

/-- One roster entry: `{device, session, check_list}` (`audit.py:145-147`). -/
structure DeviceData where
  device : String
  session : Session
  check_list : List String
deriving Repr, DecidableEq

/-- The per-device result shell and its final shape (`audit.py:149-156`,
§6 of the spec), minus the timestamp: `status = none` until finalization. -/
structure DeviceResult where
  login : Option Bool
  hostname : String
  raw : Raw
  facts : List (String × String)
  checks : List (String × CheckResult)
  status : Option Nat
deriving Repr, DecidableEq

/-- The checks map pre-populated at NOT_RUN (`audit.py:155`). -/
def initChecks (check_list : List String) : List (String × CheckResult) :=
  check_list.map (fun f => (f, initCheckResult))

/-- The finalization scan of `audit.py:211-215`: overall status 2 (FAIL) if
any check result has status 2 (FAIL) or 5 (ERROR), else 1 (PASS).  The
Python `for`-with-`break` computes exactly this `any`. -/
def anyFail (checks : List (String × CheckResult)) : Bool :=
  checks.any (fun p => p.2.status == 2 || p.2.status == 5)

/-- How the audit task ended: `normal`; `raised` — an exception escaped the
task (the unguarded final `conn.disconnect()` on a connection lost to a
failed cross-device reconnect, `audit.py:217`); `hung` — some check's drive
loop never terminated (fuel exhausted in the model). -/
inductive TaskOut where
  | normal
  | raised
  | hung
deriving Repr, DecidableEq

/-- Everything one audit task produced: the device's entry in
`self.results` (partial when the task raised or hung) plus outcome and
ghost event log. -/
structure TaskRes where
  result : DeviceResult
  out : TaskOut
  log : List Ev

/-- `audit_task` (`audit.py:138-218`): allocate the result shell, connect,
record reachability and resolved hostname, bail out with overall FAIL when
the connection failed, otherwise gather facts (when gatherers exist), run
every check, finalize the overall status, and call `disconnect()` on the
current connection — unguarded, so it raises when that connection is `None`
after a failed cross-device reconnect. -/
def audit_task (env : Env) (dd : DeviceData) (fuel : Nat) : TaskRes :=
  let conn0 := obt_conn env dd.device dd.session
  let base : DeviceResult :=
    { login := some conn0.isSome
      hostname := get_device_fqdn env dd.device conn0
      raw := []
      facts := []
      checks := initChecks dd.check_list
      status := none }
  match conn0 with
  | none => ⟨{ base with status := some 2 }, TaskOut.normal, [Ev.connect dd.device false]⟩
  | some c0 =>
    let facts := if env.gatherers.isEmpty then [] else env.gatherFacts c0.hostname
    let gevs : List Ev := if env.gatherers.isEmpty then [] else [Ev.gather]
    let cr := runChecks env dd.device dd.session fuel dd.check_list
      (initChecks dd.check_list) (some c0) []
    if cr.hung then
      ⟨{ base with facts := facts, checks := cr.checks, raw := cr.raw },
        TaskOut.hung, [Ev.connect dd.device true] ++ gevs ++ cr.log⟩
    else
      let r := { base with
        facts := facts
        checks := cr.checks
        raw := cr.raw
        status := some (if anyFail cr.checks then 2 else 1) }
      match cr.conn with
      | none => ⟨r, TaskOut.raised, [Ev.connect dd.device true] ++ gevs ++ cr.log⟩
      | some c1 =>
        ⟨r, TaskOut.normal,
          [Ev.connect dd.device true] ++ gevs ++ cr.log ++ [Ev.disconnect c1.hostname]⟩

/-- The orchestrator (`start_thread_executor` + `wait_for_completion`,
`audit.py:94-117`): one task per roster entry, each writing only its own key
of `self.results`.  Tasks own disjoint resources, so the concurrent
execution is modelled as a fold in which each task inserts its own entry;
later entries for a duplicated device id shadow earlier ones exactly as the
later dict write would. -/
def runAll (env : Env) (roster : List DeviceData) (fuel : Nat) :
    List (String × DeviceResult) :=
  roster.foldl (fun acc dd => mapSet acc dd.device (audit_task env dd fuel).result) []

/-! ## Cache instrumentation

For a fixed audited `device`, target `t` and command `cmd`, the following
definitions pick out of an event log the sends executed for the request
`(t, cmd)` and the outputs delivered to handlers for it, and name the raw
cache key that request family reads and writes. -/

/-- The raw-cache key used for requests with target `t` and command `cmd`
during the audit of `device`. -/
def relKey (device t cmd : String) : String :=
  if t = device then cmd else t ++ ":" ++ cmd

/-- Does event `e` record a send executed for a request with target `t` and
command `cmd` (same-device branch when `t = device`, cross-device branch
otherwise)? -/
def isRelSend (device t cmd : String) (e : Ev) : Bool :=
  match e with
  | Ev.send connTo c kind =>
    if t = device then decide (c = cmd) && decide (kind = SendKind.sameDev)
    else decide (connTo = t) && decide (c = cmd) && decide (kind = SendKind.crossDev)
  | _ => false

/-- Number of sends executed for target `t`, command `cmd` in a log. -/
def relSendCount (device t cmd : String) (log : List Ev) : Nat :=
  (log.filter (isRelSend device t cmd)).length

/-- The output delivered by event `e` to a handler for a request with target
`t` and command `cmd`, if any. -/
def relOut (t cmd : String) (e : Ev) : Option String :=
  match e with
  | Ev.handled req o => if req.device = t ∧ req.command = cmd then some o else none
  | _ => none

/-- All outputs delivered to handlers for target `t`, command `cmd`. -/
def relOuts (t cmd : String) (log : List Ev) : List String :=
  log.filterMap (relOut t cmd)

/-- The caching invariant of one execution segment that takes the raw cache
from `raw` to `raw2` while emitting `Δ`, for the request family
`(t, cmd)` with key `K := relKey device t cmd`:
* a truthy cache entry is stable and suppresses all further sends;
* at most one send is executed in total;
* once a send happened the entry is truthy;
* every output delivered to a handler is the final cached text. -/
def SegOK (device t cmd : String) (raw : Raw) (Δ : List Ev) (raw2 : Raw) : Prop :=
  (∀ v, rawGetTruthy raw (relKey device t cmd) = some v →
    rawGetTruthy raw2 (relKey device t cmd) = some v ∧
    relSendCount device t cmd Δ = 0) ∧
  relSendCount device t cmd Δ ≤ 1 ∧
  (1 ≤ relSendCount device t cmd Δ →
    (rawGetTruthy raw2 (relKey device t cmd)).isSome = true) ∧
  (∀ o ∈ relOuts t cmd Δ, rawGetTruthy raw2 (relKey device t cmd) = some o)

/-- The events one loop iteration contributes: the processing events plus,
when processing succeeded, the handler invocation. -/
def procEvs (p : ProcRes) (req : Request) : List Ev :=
  p.evs ++ (match p.out with
    | some o => [Ev.handled req o]
    | none => [])

/-! ## Concrete fixtures used by witnesses and counterexamples -/

/-- A session without jumphost credentials. -/
def sessW : Session := ⟨"netops", "secret", none, none, none⟩

/-- The jumphost host is present but username and password are `None`. -/
def sessC5 : Session := ⟨"netops", "secret", some "10.9.9.9", none, none⟩

/-- A proxyless connection to `d` (what `obt_conn` with `sessW` yields). -/
def connW (d : String) : Conn := ⟨d, none⟩

/-- A check that issues a single request and then clears `REQUESTS`. -/
def oneShotCheck (r : Request) : CheckDef :=
  { St := Bool
    init := false
    requests := fun b => if b then none else some r
    handle := fun _ _ _ => true
    results := fun b => if b then ⟨1, "ok", []⟩ else initCheckResult }

/-- A check that reports FAIL (status 2) after its single request. -/
def failingCheck (r : Request) : CheckDef :=
  { St := Bool
    init := false
    requests := fun b => if b then none else some r
    handle := fun _ _ _ => true
    results := fun b => if b then ⟨2, "bad", ["fix it"]⟩ else initCheckResult }

/-- A check that alternates forever between two distinct same-device
requests: a 2-cycle, i.e. k = 2 distinct requests and no immediate
repeat. -/
def twoCycleCheck : CheckDef :=
  { St := Bool
    init := false
    requests := fun b =>
      some (if b then ⟨"A", "show version", "hv"⟩ else ⟨"A", "show clock", "hc"⟩)
    handle := fun b _ _ => !b
    results := fun _ => initCheckResult }

/-- A check whose every handler invocation re-issues the very same request:
the repeat-guard must stop it after one round trip. -/
def constCheck (r : Request) : CheckDef :=
  { St := Unit
    init := ()
    requests := fun _ => some r
    handle := fun _ _ _ => ()
    results := fun _ => initCheckResult }

/-- All connections succeed; every command yields the fixed text "OUT";
reverse DNS always fails; no checks, no gatherers. -/
def envPlain : Env :=
  { connectOk := fun _ => true
    output := fun _ _ => "OUT"
    dns := fun _ => none
    basePrompt := fun d => d
    checks := fun _ => none
    gatherers := []
    gatherFacts := fun _ => [] }

/-- C1 witness world: device "A" runs a check crossing to "C", which is
unreachable, so A's task raises at the final disconnect; device "D" runs
an ordinary check. -/
def envW1 : Env :=
  { envPlain with
    connectOk := fun d => !(d == "C")
    checks := fun f =>
      if f == "cross.py" then some (oneShotCheck ⟨"C", "show arp", "h1"⟩)
      else if f == "ver.py" then some (oneShotCheck ⟨"D", "show version", "h2"⟩)
      else none }

def ddA : DeviceData := ⟨"A", sessW, ["cross.py"]⟩

def ddD : DeviceData := ⟨"D", sessW, ["ver.py"]⟩

def rosterW : List DeviceData := [ddA, ddD]

/-- C3 witness world: every device is unreachable. -/
def envC3 : Env := { envPlain with connectOk := fun _ => false }

def ddC3 : DeviceData := ⟨"10.0.0.1", sessW, ["ntp.py"]⟩

/-- C4 witness world: device "E" runs one passing and one failing check. -/
def envW4 : Env :=
  { envPlain with
    checks := fun f =>
      if f == "pass.py" then some (oneShotCheck ⟨"E", "show version", "h1"⟩)
      else if f == "fail.py" then some (failingCheck ⟨"E", "show clock", "h2"⟩)
      else none }

def ddE : DeviceData := ⟨"E", sessW, ["pass.py", "fail.py"]⟩

/-- C6 counterexample world: every send returns `""`, which the truthiness
test treats as a cache miss; two checks request the same command on the
audited device. -/
def envC6 : Env :=
  { envPlain with
    output := fun _ _ => ""
    checks := fun f =>
      if f == "c1.py" || f == "c2.py" then some (oneShotCheck ⟨"A", "show version", "h"⟩)
      else none }

def ddC6 : DeviceData := ⟨"A", sessW, ["c1.py", "c2.py"]⟩

/-- C6/C7 witness world: non-empty outputs; two checks share a same-device
command and two share a cross-device request to "B". -/
def envW6 : Env :=
  { envPlain with
    checks := fun f =>
      if f == "c1.py" || f == "c2.py" then some (oneShotCheck ⟨"A", "show version", "h"⟩)
      else if f == "x1.py" || f == "x2.py" then some (oneShotCheck ⟨"B", "show clock", "h"⟩)
      else none }

def ddW6 : DeviceData := ⟨"A", sessW, ["c1.py", "c2.py", "x1.py", "x2.py"]⟩

/-- C7 counterexample world: cross-device sends to "B" return `""`, forcing
a second connection for the identical request. -/
def envC7 : Env :=
  { envPlain with
    output := fun _ _ => ""
    checks := fun f =>
      if f == "x1.py" || f == "x2.py" then some (oneShotCheck ⟨"B", "show clock", "h"⟩)
      else none }

def ddC7 : DeviceData := ⟨"A", sessW, ["x1.py", "x2.py"]⟩

/-- C8 counterexample world: the cross-device target "C" is unreachable, so
the reconnect leaves `conn = None` and the final `disconnect()` raises. -/
def envC8 : Env :=
  { envPlain with
    connectOk := fun d => !(d == "C")
    checks := fun f =>
      if f == "cross.py" then some (oneShotCheck ⟨"C", "show arp", "h"⟩) else none }

def ddC8 : DeviceData := ⟨"A", sessW, ["cross.py"]⟩

/-- C9 witness world: reverse DNS succeeds only for 10.2.3.4; the running
configuration carries a domain-name line; the prompt is "sw1". -/
def envW9 : Env :=
  { envPlain with
    dns := fun d => if d == "10.2.3.4" then some "edge.example.net" else none
    output := fun _ c =>
      if c == domainProbeCmd then "hostname sw1\nip domain-name corp.example\nend"
      else "OUT"
    basePrompt := fun _ => "sw1" }

/-- C10 counterexample world: check `b1.py` issues the cross-device request
(B, "show clock") whose output is "x"; check `b2.py` issues the same-device
command literally named "B:show clock", whose direct execution would
return "y". -/
def envC10 : Env :=
  { envPlain with
    output := fun d c => if d == "B" && c == "show clock" then "x" else "y"
    checks := fun f =>
      if f == "b1.py" then some (oneShotCheck ⟨"B", "show clock", "h"⟩)
      else if f == "b2.py" then some (oneShotCheck ⟨"A", "B:show clock", "h"⟩)
      else none }

def ddC10 : DeviceData := ⟨"A", sessW, ["b1.py", "b2.py"]⟩

/-! ## Basic lemmas about the cache and the instrumentation -/

theorem mapGet_mapSet_self {α : Type _} (m : List (String × α)) (k : String) (v : α) :
    mapGet (mapSet m k v) k = some v := by
  simp [mapGet, mapSet, List.find?]

theorem mapGet_mapSet_ne {α : Type _} (m : List (String × α)) (k k2 : String) (v : α)
    (h : k2 ≠ k) : mapGet (mapSet m k v) k2 = mapGet m k2 := by
  simp only [mapGet, mapSet, List.find?]
  have : (k == k2) = false := by
    simp [beq_iff_eq]
    exact fun he => h he.symm
  simp [this]

theorem rawGetTruthy_mapSet_self (raw : Raw) (k v : String) :
    rawGetTruthy (mapSet raw k v) k = if v = "" then none else some v := by
  simp [rawGetTruthy, mapGet_mapSet_self]

theorem rawGetTruthy_mapSet_ne (raw : Raw) (k k2 v : String) (h : k2 ≠ k) :
    rawGetTruthy (mapSet raw k v) k2 = rawGetTruthy raw k2 := by
  simp [rawGetTruthy, mapGet_mapSet_ne raw k k2 v h]

theorem relSendCount_append (device t cmd : String) (a b : List Ev) :
    relSendCount device t cmd (a ++ b) =
      relSendCount device t cmd a + relSendCount device t cmd b := by
  simp [relSendCount, List.filter_append]

theorem relOuts_append (t cmd : String) (a b : List Ev) :
    relOuts t cmd (a ++ b) = relOuts t cmd a ++ relOuts t cmd b := by
  simp [relOuts, List.filterMap_append]

theorem segOK_refl (device t cmd : String) (raw : Raw) :
    SegOK device t cmd raw [] raw := by
  refine ⟨fun v hv => ⟨hv, rfl⟩, ?_, ?_, ?_⟩
  · simp [relSendCount]
  · intro h; simp [relSendCount] at h
  · intro o ho; simp [relOuts] at ho

/-- A segment whose events contain no relevant send and no relevant handler
delivery, and which leaves the cache untouched, is trivially `SegOK`. -/
theorem segOK_inert (device t cmd : String) (raw : Raw) (Δ : List Ev)
    (hs : relSendCount device t cmd Δ = 0) (ho : relOuts t cmd Δ = []) :
    SegOK device t cmd raw Δ raw := by
  refine ⟨fun v hv => ⟨hv, hs⟩, by omega, by omega, ?_⟩
  intro o hmem
  rw [ho] at hmem
  simp at hmem

/-- `SegOK` composes along consecutive segments. -/
theorem segOK_trans (device t cmd : String) (raw raw1 raw2 : Raw)
    (Δ1 Δ2 : List Ev)
    (h1 : SegOK device t cmd raw Δ1 raw1)
    (h2 : SegOK device t cmd raw1 Δ2 raw2) :
    SegOK device t cmd raw (Δ1 ++ Δ2) raw2 := by
  obtain ⟨a1, b1, c1, d1⟩ := h1
  obtain ⟨a2, b2, c2, d2⟩ := h2
  rw [SegOK, relSendCount_append, relOuts_append]
  refine ⟨?_, ?_, ?_, ?_⟩
  · intro v hv
    obtain ⟨hv1, hc1⟩ := a1 v hv
    obtain ⟨hv2, hc2⟩ := a2 v hv1
    exact ⟨hv2, by omega⟩
  · rcases Nat.eq_zero_or_pos (relSendCount device t cmd Δ1) with h0 | hpos
    · omega
    · have hsome := c1 hpos
      obtain ⟨w, hw⟩ := Option.isSome_iff_exists.mp hsome
      obtain ⟨_, hc2⟩ := a2 w hw
      omega
  · intro hge
    rcases Nat.eq_zero_or_pos (relSendCount device t cmd Δ2) with h0 | hpos
    · have hpos1 : 1 ≤ relSendCount device t cmd Δ1 := by omega
      have hsome := c1 hpos1
      obtain ⟨w, hw⟩ := Option.isSome_iff_exists.mp hsome
      obtain ⟨hv2, _⟩ := a2 w hw
      simp [hv2]
    · exact c2 hpos
  · intro o hmem
    rcases List.mem_append.mp hmem with hm1 | hm2
    · have ho1 := d1 o hm1
      exact (a2 o ho1).1
    · exact d2 o hm2

theorem rawGetTruthy_eq_some_iff (raw : Raw) (k v : String) :
    rawGetTruthy raw k = some v ↔ mapGet raw k = some v ∧ v ≠ "" := by
  unfold rawGetTruthy
  rcases hm : mapGet raw k with _ | w
  · simp
  · by_cases hw : w = ""
    · subst hw
      simp
      rintro rfl
      simp
    · simp [hw]
      rintro rfl
      exact hw

/-- When the request is the `(t, cmd)` family member, its cache key is the
family key. -/
theorem reqKey_eq_relKey (device t cmd : String) (req : Request)
    (h1 : req.device = t) (h2 : req.command = cmd) :
    reqKey device req = relKey device t cmd := by
  simp [reqKey, relKey, h1, h2]

/-! ### Shape lemmas for `processReq` -/

theorem processReq_hit (env : Env) (device : String) (session : Session)
    (req : Request) (conn : Option Conn) (raw : Raw) (v : String)
    (h : rawGetTruthy raw (reqKey device req) = some v) :
    processReq env device session req conn raw =
      ⟨some v, conn, mapSet raw (reqKey device req) v, []⟩ := by
  by_cases hd : req.device = device
  · simp only [reqKey, if_pos hd] at h ⊢
    simp [processReq, hd, h]
  · simp only [reqKey, if_neg hd] at h ⊢
    simp [processReq, hd, h]

theorem processReq_miss_noconn (env : Env) (device : String) (session : Session)
    (req : Request) (raw : Raw)
    (h : rawGetTruthy raw (reqKey device req) = none) :
    processReq env device session req none raw = ⟨none, none, raw, []⟩ := by
  by_cases hd : req.device = device
  · simp only [reqKey, if_pos hd] at h
    simp [processReq, hd, h]
  · simp only [reqKey, if_neg hd] at h
    simp [processReq, hd, h]

theorem processReq_same_miss (env : Env) (device : String) (session : Session)
    (req : Request) (raw : Raw) (c0 : Conn)
    (hd : req.device = device)
    (h : rawGetTruthy raw req.command = none) :
    processReq env device session req (some c0) raw =
      ⟨some (env.output c0.hostname req.command), some c0,
        mapSet raw req.command (env.output c0.hostname req.command),
        [Ev.send c0.hostname req.command SendKind.sameDev]⟩ := by
  simp [processReq, hd, h]

theorem processReq_cross_connfail (env : Env) (device : String) (session : Session)
    (req : Request) (raw : Raw) (c0 : Conn)
    (hd : ¬ req.device = device)
    (h : rawGetTruthy raw (req.device ++ ":" ++ req.command) = none)
    (hko : env.connectOk req.device = false) :
    processReq env device session req (some c0) raw =
      ⟨none, none, raw, [Ev.disconnect c0.hostname, Ev.connect req.device false]⟩ := by
  simp [processReq, hd, h, obt_conn, hko]

theorem processReq_cross_send (env : Env) (device : String) (session : Session)
    (req : Request) (raw : Raw) (c0 : Conn)
    (hd : ¬ req.device = device)
    (h : rawGetTruthy raw (req.device ++ ":" ++ req.command) = none)
    (hko : env.connectOk req.device = true) :
    processReq env device session req (some c0) raw =
      ⟨some (env.output req.device req.command),
        some ⟨req.device, buildProxy session⟩,
        mapSet raw (req.device ++ ":" ++ req.command) (env.output req.device req.command),
        [Ev.disconnect c0.hostname, Ev.connect req.device true,
          Ev.send req.device req.command SendKind.crossDev]⟩ := by
  simp [processReq, hd, h, obt_conn, hko]

theorem segOK_step_hit (env : Env) (device : String) (session : Session)
    (t cmd : String) (req : Request) (conn : Option Conn) (raw : Raw) (v : String)
    (hhit : rawGetTruthy raw (reqKey device req) = some v) :
    SegOK device t cmd raw
      (procEvs (processReq env device session req conn raw) req)
      (processReq env device session req conn raw).raw := by
  rw [processReq_hit env device session req conn raw v hhit]
  show SegOK device t cmd raw [Ev.handled req v] (mapSet raw (reqKey device req) v)
  obtain ⟨hget, hv⟩ := (rawGetTruthy_eq_some_iff raw _ v).mp hhit
  have hK0 : rawGetTruthy (mapSet raw (reqKey device req) v) (reqKey device req) = some v := by
    rw [rawGetTruthy_mapSet_self, if_neg hv]
  have hcnt : relSendCount device t cmd [Ev.handled req v] = 0 := by
    simp [relSendCount, isRelSend]
  refine ⟨?_, ?_, ?_, ?_⟩
  · intro w hw
    by_cases hK : relKey device t cmd = reqKey device req
    · rw [hK] at hw ⊢
      rw [hhit] at hw
      have hwv : v = w := Option.some.inj hw
      subst hwv
      exact ⟨hK0, hcnt⟩
    · rw [rawGetTruthy_mapSet_ne raw _ _ v hK]
      exact ⟨hw, hcnt⟩
  · rw [hcnt]; omega
  · intro hge; rw [hcnt] at hge; omega
  · intro o ho
    by_cases hrel : req.device = t ∧ req.command = cmd
    · have ho2 : o = v := by
        simp [relOuts, relOut, hrel] at ho
        exact ho
      subst ho2
      rw [← reqKey_eq_relKey device t cmd req hrel.1 hrel.2]
      exact hK0
    · exfalso
      simp [relOuts, relOut, hrel] at ho

theorem segOK_step_noconn (env : Env) (device : String) (session : Session)
    (t cmd : String) (req : Request) (raw : Raw)
    (hm : rawGetTruthy raw (reqKey device req) = none) :
    SegOK device t cmd raw
      (procEvs (processReq env device session req none raw) req)
      (processReq env device session req none raw).raw := by
  rw [processReq_miss_noconn env device session req raw hm]
  show SegOK device t cmd raw [] raw
  exact segOK_refl device t cmd raw

theorem segOK_step_cross_connfail (env : Env) (device : String) (session : Session)
    (t cmd : String) (req : Request) (raw : Raw) (c0 : Conn)
    (hd : ¬ req.device = device)
    (hm : rawGetTruthy raw (req.device ++ ":" ++ req.command) = none)
    (hko : env.connectOk req.device = false) :
    SegOK device t cmd raw
      (procEvs (processReq env device session req (some c0) raw) req)
      (processReq env device session req (some c0) raw).raw := by
  rw [processReq_cross_connfail env device session req raw c0 hd hm hko]
  show SegOK device t cmd raw
    [Ev.disconnect c0.hostname, Ev.connect req.device false] raw
  apply segOK_inert
  · simp [relSendCount, isRelSend]
  · simp [relOuts, relOut]

theorem segOK_step_same_miss (env : Env) (device : String) (session : Session)
    (t cmd : String) (req : Request) (raw : Raw) (c0 : Conn)
    (H : ∀ d, env.output d cmd ≠ "")
    (hd : req.device = device)
    (hm : rawGetTruthy raw req.command = none) :
    SegOK device t cmd raw
      (procEvs (processReq env device session req (some c0) raw) req)
      (processReq env device session req (some c0) raw).raw := by
  rw [processReq_same_miss env device session req raw c0 hd hm]
  show SegOK device t cmd raw
    [Ev.send c0.hostname req.command SendKind.sameDev,
      Ev.handled req (env.output c0.hostname req.command)]
    (mapSet raw req.command (env.output c0.hostname req.command))
  by_cases hrel : req.device = t ∧ req.command = cmd
  · obtain ⟨h1, h2⟩ := hrel
    subst h1
    subst h2
    have ht : req.device = device := hd
    have hKval : relKey device req.device req.command = req.command := by
      rw [relKey, if_pos ht]
    have houtne : env.output c0.hostname req.command ≠ "" := H c0.hostname
    have hK2 : rawGetTruthy (mapSet raw req.command (env.output c0.hostname req.command))
        (relKey device req.device req.command) = some (env.output c0.hostname req.command) := by
      rw [hKval, rawGetTruthy_mapSet_self, if_neg houtne]
    refine ⟨?_, ?_, ?_, ?_⟩
    · intro w hw
      rw [hKval, hm] at hw
      cases hw
    · simp [relSendCount, isRelSend, ht]
    · intro _
      rw [hK2]
      rfl
    · intro o ho
      simp [relOuts, relOut] at ho
      subst ho
      exact hK2
  · have hcnt : relSendCount device t cmd
        [Ev.send c0.hostname req.command SendKind.sameDev,
          Ev.handled req (env.output c0.hostname req.command)] = 0 := by
      by_cases ht : t = device
      · have hcm : ¬ req.command = cmd := fun hc => hrel ⟨by rw [hd, ht], hc⟩
        simp [relSendCount, isRelSend, ht, hcm]
      · simp [relSendCount, isRelSend, ht]
    have houts : relOuts t cmd
        [Ev.send c0.hostname req.command SendKind.sameDev,
          Ev.handled req (env.output c0.hostname req.command)] = [] := by
      simp [relOuts, relOut, hrel]
    by_cases hK : relKey device t cmd = req.command
    · refine ⟨?_, ?_, ?_, ?_⟩
      · intro w hw
        rw [hK, hm] at hw
        cases hw
      · rw [hcnt]; omega
      · intro hge; rw [hcnt] at hge; omega
      · intro o ho; rw [houts] at ho; simp at ho
    · refine ⟨?_, ?_, ?_, ?_⟩
      · intro w hw
        rw [rawGetTruthy_mapSet_ne raw _ _ _ hK]
        exact ⟨hw, hcnt⟩
      · rw [hcnt]; omega
      · intro hge; rw [hcnt] at hge; omega
      · intro o ho; rw [houts] at ho; simp at ho

theorem segOK_step_cross_send (env : Env) (device : String) (session : Session)
    (t cmd : String) (req : Request) (raw : Raw) (c0 : Conn)
    (H : ∀ d, env.output d cmd ≠ "")
    (hd : ¬ req.device = device)
    (hm : rawGetTruthy raw (req.device ++ ":" ++ req.command) = none)
    (hko : env.connectOk req.device = true) :
    SegOK device t cmd raw
      (procEvs (processReq env device session req (some c0) raw) req)
      (processReq env device session req (some c0) raw).raw := by
  rw [processReq_cross_send env device session req raw c0 hd hm hko]
  show SegOK device t cmd raw
    [Ev.disconnect c0.hostname, Ev.connect req.device true,
      Ev.send req.device req.command SendKind.crossDev,
      Ev.handled req (env.output req.device req.command)]
    (mapSet raw (req.device ++ ":" ++ req.command) (env.output req.device req.command))
  by_cases hrel : req.device = t ∧ req.command = cmd
  · obtain ⟨h1, h2⟩ := hrel
    subst h1
    subst h2
    have hKval : relKey device req.device req.command = req.device ++ ":" ++ req.command := by
      rw [relKey, if_neg hd]
    have houtne : env.output req.device req.command ≠ "" := H req.device
    have hK2 : rawGetTruthy
        (mapSet raw (req.device ++ ":" ++ req.command) (env.output req.device req.command))
        (relKey device req.device req.command) = some (env.output req.device req.command) := by
      rw [hKval, rawGetTruthy_mapSet_self, if_neg houtne]
    refine ⟨?_, ?_, ?_, ?_⟩
    · intro w hw
      rw [hKval, hm] at hw
      cases hw
    · simp [relSendCount, isRelSend, hd]
    · intro _
      rw [hK2]
      rfl
    · intro o ho
      simp [relOuts, relOut] at ho
      subst ho
      exact hK2
  · have hcnt : relSendCount device t cmd
        [Ev.disconnect c0.hostname, Ev.connect req.device true,
          Ev.send req.device req.command SendKind.crossDev,
          Ev.handled req (env.output req.device req.command)] = 0 := by
      by_cases ht : t = device
      · simp [relSendCount, isRelSend, ht]
      · by_cases ha : req.device = t
        · have hb : ¬ req.command = cmd := fun hc => hrel ⟨ha, hc⟩
          simp [relSendCount, isRelSend, ht, ha, hb]
        · simp [relSendCount, isRelSend, ht, ha]
    have houts : relOuts t cmd
        [Ev.disconnect c0.hostname, Ev.connect req.device true,
          Ev.send req.device req.command SendKind.crossDev,
          Ev.handled req (env.output req.device req.command)] = [] := by
      simp [relOuts, relOut, hrel]
    by_cases hK : relKey device t cmd = req.device ++ ":" ++ req.command
    · refine ⟨?_, ?_, ?_, ?_⟩
      · intro w hw
        rw [hK, hm] at hw
        cases hw
      · rw [hcnt]; omega
      · intro hge; rw [hcnt] at hge; omega
      · intro o ho; rw [houts] at ho; simp at ho
    · refine ⟨?_, ?_, ?_, ?_⟩
      · intro w hw
        rw [rawGetTruthy_mapSet_ne raw _ _ _ hK]
        exact ⟨hw, hcnt⟩
      · rw [hcnt]; omega
      · intro hge; rw [hcnt] at hge; omega
      · intro o ho; rw [houts] at ho; simp at ho

/-- One full loop iteration (request processing plus handler invocation)
preserves the caching invariant, for any request. -/
theorem segOK_procStep (env : Env) (device : String) (session : Session)
    (t cmd : String) (req : Request) (conn : Option Conn) (raw : Raw)
    (H : ∀ d, env.output d cmd ≠ "") :
    SegOK device t cmd raw
      (procEvs (processReq env device session req conn raw) req)
      (processReq env device session req conn raw).raw := by
  cases hhit : rawGetTruthy raw (reqKey device req) with
  | some v => exact segOK_step_hit env device session t cmd req conn raw v hhit
  | none =>
    cases conn with
    | none => exact segOK_step_noconn env device session t cmd req raw hhit
    | some c0 =>
      by_cases hd : req.device = device
      · have hm : rawGetTruthy raw req.command = none := by
          rw [reqKey, if_pos hd] at hhit; exact hhit
        exact segOK_step_same_miss env device session t cmd req raw c0 H hd hm
      · have hm : rawGetTruthy raw (req.device ++ ":" ++ req.command) = none := by
          rw [reqKey, if_neg hd] at hhit; exact hhit
        cases hko : env.connectOk req.device with
        | false => exact segOK_step_cross_connfail env device session t cmd req raw c0 hd hm hko
        | true => exact segOK_step_cross_send env device session t cmd req raw c0 H hd hm hko

/-- The whole drive loop of one check preserves the caching invariant. -/
theorem segOK_runCheckLoop (env : Env) (device : String) (session : Session)
    (c : CheckDef) (t cmd : String) (H : ∀ d, env.output d cmd ≠ "") :
    ∀ (fuel : Nat) (st : c.St) (last : Option Request) (conn : Option Conn) (raw : Raw),
      SegOK device t cmd raw
        (runCheckLoop env device session c fuel st last conn raw).log
        (runCheckLoop env device session c fuel st last conn raw).raw := by
  intro fuel
  induction fuel with
  | zero =>
    intro st last conn raw
    exact segOK_refl device t cmd raw
  | succ fuel ih =>
    intro st last conn raw
    rw [runCheckLoop]
    cases hreq : c.requests st with
    | none => exact segOK_refl device t cmd raw
    | some req =>
      dsimp only
      by_cases hguard : some req = last
      · rw [if_pos hguard]
        exact segOK_refl device t cmd raw
      · rw [if_neg hguard]
        cases hp : (processReq env device session req conn raw).out with
        | none =>
          show SegOK device t cmd raw
            (processReq env device session req conn raw).evs
            (processReq env device session req conn raw).raw
          have hstep := segOK_procStep env device session t cmd req conn raw H
          rw [procEvs, hp, List.append_nil] at hstep
          exact hstep
        | some out =>
          show SegOK device t cmd raw
            ((processReq env device session req conn raw).evs ++ [Ev.handled req out] ++
              (runCheckLoop env device session c fuel (c.handle st req out) (some req)
                (processReq env device session req conn raw).conn
                (processReq env device session req conn raw).raw).log)
            (runCheckLoop env device session c fuel (c.handle st req out) (some req)
              (processReq env device session req conn raw).conn
              (processReq env device session req conn raw).raw).raw
          have hstep := segOK_procStep env device session t cmd req conn raw H
          rw [procEvs, hp] at hstep
          exact segOK_trans device t cmd raw _ _ _ _ hstep
            (ih (c.handle st req out) (some req)
              (processReq env device session req conn raw).conn
              (processReq env device session req conn raw).raw)

/-- The per-device loop over all checks preserves the caching invariant. -/
theorem segOK_runChecks (env : Env) (device : String) (session : Session)
    (t cmd : String) (fuel : Nat) (H : ∀ d, env.output d cmd ≠ "") :
    ∀ (files : List String) (checks : List (String × CheckResult))
      (conn : Option Conn) (raw : Raw),
      SegOK device t cmd raw
        (runChecks env device session fuel files checks conn raw).log
        (runChecks env device session fuel files checks conn raw).raw := by
  intro files
  induction files with
  | nil =>
    intro checks conn raw
    exact segOK_refl device t cmd raw
  | cons f rest ih =>
    intro checks conn raw
    rw [runChecks]
    cases hc : env.checks f with
    | none => exact ih checks conn raw
    | some c =>
      dsimp only
      have hloop := segOK_runCheckLoop env device session c t cmd H fuel
        c.init none conn raw
      cases hout : (runCheckLoop env device session c fuel c.init none conn raw).out with
      | done st =>
        exact segOK_trans device t cmd raw
          (runCheckLoop env device session c fuel c.init none conn raw).raw
          (runChecks env device session fuel rest (checksSet checks f (c.results st))
            (runCheckLoop env device session c fuel c.init none conn raw).conn
            (runCheckLoop env device session c fuel c.init none conn raw).raw).raw
          (runCheckLoop env device session c fuel c.init none conn raw).log
          (runChecks env device session fuel rest (checksSet checks f (c.results st))
            (runCheckLoop env device session c fuel c.init none conn raw).conn
            (runCheckLoop env device session c fuel c.init none conn raw).raw).log
          hloop
          (ih (checksSet checks f (c.results st))
            (runCheckLoop env device session c fuel c.init none conn raw).conn
            (runCheckLoop env device session c fuel c.init none conn raw).raw)
      | raised =>
        exact segOK_trans device t cmd raw
          (runCheckLoop env device session c fuel c.init none conn raw).raw
          (runChecks env device session fuel rest checks
            (runCheckLoop env device session c fuel c.init none conn raw).conn
            (runCheckLoop env device session c fuel c.init none conn raw).raw).raw
          (runCheckLoop env device session c fuel c.init none conn raw).log
          (runChecks env device session fuel rest checks
            (runCheckLoop env device session c fuel c.init none conn raw).conn
            (runCheckLoop env device session c fuel c.init none conn raw).raw).log
          hloop
          (ih checks
            (runCheckLoop env device session c fuel c.init none conn raw).conn
            (runCheckLoop env device session c fuel c.init none conn raw).raw)
      | fuelOut st =>
        exact hloop

/-- The full audit task preserves the caching invariant from the empty
cache: at most one send is executed for any request family `(t, cmd)` with
non-falsy outputs, and every output delivered for that family is the final
cached text. -/
theorem segOK_audit (env : Env) (dd : DeviceData) (fuel : Nat) (t cmd : String)
    (H : ∀ d, env.output d cmd ≠ "") :
    SegOK dd.device t cmd [] (audit_task env dd fuel).log
      (audit_task env dd fuel).result.raw := by
  rw [audit_task]
  cases hconn : obt_conn env dd.device dd.session with
  | none =>
    dsimp only
    apply segOK_inert
    · simp [relSendCount, isRelSend]
    · simp [relOuts, relOut]
  | some c0 =>
    dsimp only
    have hpre : SegOK dd.device t cmd []
        ([Ev.connect dd.device true] ++
          (if env.gatherers.isEmpty then ([] : List Ev) else [Ev.gather])) [] := by
      apply segOK_inert
      · cases hg : env.gatherers.isEmpty <;> simp [relSendCount, isRelSend, hg]
      · cases hg : env.gatherers.isEmpty <;> simp [relOuts, relOut, hg]
    have hchecks := segOK_runChecks env dd.device dd.session t cmd fuel H
      dd.check_list (initChecks dd.check_list) (some c0) []
    by_cases hh : (runChecks env dd.device dd.session fuel dd.check_list
        (initChecks dd.check_list) (some c0) []).hung
    · rw [if_pos hh]
      exact segOK_trans dd.device t cmd [] [] _ _ _ hpre hchecks
    · rw [if_neg hh]
      cases hcr : (runChecks env dd.device dd.session fuel dd.check_list
          (initChecks dd.check_list) (some c0) []).conn with
      | none =>
        exact segOK_trans dd.device t cmd [] [] _ _ _ hpre hchecks
      | some c1 =>
        show SegOK dd.device t cmd []
          ([Ev.connect dd.device true] ++
            (if env.gatherers.isEmpty then ([] : List Ev) else [Ev.gather]) ++
            (runChecks env dd.device dd.session fuel dd.check_list
              (initChecks dd.check_list) (some c0) []).log ++ [Ev.disconnect c1.hostname])
          (runChecks env dd.device dd.session fuel dd.check_list
            (initChecks dd.check_list) (some c0) []).raw
        have hmid := segOK_trans dd.device t cmd [] [] _ _ _ hpre hchecks
        have hlast : SegOK dd.device t cmd
            (runChecks env dd.device dd.session fuel dd.check_list
              (initChecks dd.check_list) (some c0) []).raw
            [Ev.disconnect c1.hostname]
            (runChecks env dd.device dd.session fuel dd.check_list
              (initChecks dd.check_list) (some c0) []).raw := by
          apply segOK_inert
          · simp [relSendCount, isRelSend]
          · simp [relOuts, relOut]
        exact segOK_trans dd.device t cmd [] _ _ _ _ hmid hlast

/-! ## Helper lemmas for the orchestrator, finalization, and key scheme -/

/-- Devices not named in a roster suffix are untouched by its tasks'
inserts. -/
theorem mapGet_foldAudits_notin (env : Env) (fuel : Nat) (k : String) :
    ∀ (roster : List DeviceData) (acc : List (String × DeviceResult)),
      k ∉ roster.map DeviceData.device →
      mapGet (roster.foldl
        (fun acc dd => mapSet acc dd.device (audit_task env dd fuel).result) acc) k
        = mapGet acc k := by
  intro roster
  induction roster with
  | nil => intro acc _; rfl
  | cons dd rest ih =>
    intro acc h
    rw [List.foldl_cons]
    have hk : k ≠ dd.device := by
      intro he
      exact h (by rw [List.map_cons, he]; exact List.mem_cons_self _ _)
    have hrest : k ∉ rest.map DeviceData.device := by
      intro hm
      exact h (by rw [List.map_cons]; exact List.mem_cons_of_mem _ hm)
    rw [ih _ hrest]
    exact mapGet_mapSet_ne acc dd.device k (audit_task env dd fuel).result hk

/-- Generalized-accumulator form: with pairwise-distinct device ids, each
roster entry's slot holds exactly its own task's result. -/
theorem mapGet_foldAudits_mem (env : Env) (fuel : Nat) (dd : DeviceData) :
    ∀ (roster : List DeviceData) (acc : List (String × DeviceResult)),
      dd ∈ roster → (roster.map DeviceData.device).Nodup →
      mapGet (roster.foldl
        (fun acc dd => mapSet acc dd.device (audit_task env dd fuel).result) acc) dd.device
        = some (audit_task env dd fuel).result := by
  intro roster
  induction roster with
  | nil => intro acc hmem _; exact absurd hmem (List.not_mem_nil dd)
  | cons d2 rest ih =>
    intro acc hmem hnd
    rw [List.map_cons, List.nodup_cons] at hnd
    rw [List.foldl_cons]
    by_cases hmem2 : dd ∈ rest
    · exact ih _ hmem2 hnd.2
    · have hdd : dd = d2 := by
        rcases List.mem_cons.mp hmem with h | h
        · exact h
        · exact absurd h hmem2
      subst hdd
      rw [mapGet_foldAudits_notin env fuel dd.device rest _ hnd.1]
      exact mapGet_mapSet_self acc dd.device (audit_task env dd fuel).result

/-- A same-device request processed on a live connection never raises. -/
theorem processReq_same_out_isSome (env : Env) (device : String) (session : Session)
    (req : Request) (c0 : Conn) (raw : Raw) (hd : req.device = device) :
    ((processReq env device session req (some c0) raw).out).isSome = true := by
  cases hhit : rawGetTruthy raw req.command with
  | some v => simp [processReq, hd, hhit]
  | none => simp [processReq, hd, hhit]

/-- The finalization scan flags exactly the presence of a FAIL (2) or
ERROR (5) check result. -/
theorem anyFail_iff (checks : List (String × CheckResult)) :
    anyFail checks = true ↔ ∃ p ∈ checks, p.2.status = 2 ∨ p.2.status = 5 := by
  simp [anyFail, List.any_eq_true]

/-- The result record of a connected, fully finalized audit task. -/
theorem audit_task_result_finalized (env : Env) (dd : DeviceData) (fuel : Nat)
    (c0 : Conn) (hc : obt_conn env dd.device dd.session = some c0)
    (hh : (runChecks env dd.device dd.session fuel dd.check_list
      (initChecks dd.check_list) (some c0) []).hung = false) :
    (audit_task env dd fuel).result =
      { login := some true
        hostname := get_device_fqdn env dd.device (some c0)
        raw := (runChecks env dd.device dd.session fuel dd.check_list
          (initChecks dd.check_list) (some c0) []).raw
        facts := if env.gatherers.isEmpty then []
          else env.gatherFacts c0.hostname
        checks := (runChecks env dd.device dd.session fuel dd.check_list
          (initChecks dd.check_list) (some c0) []).checks
        status := some (if anyFail (runChecks env dd.device dd.session fuel
          dd.check_list (initChecks dd.check_list) (some c0) []).checks then 2 else 1) } := by
  rw [audit_task, hc]
  dsimp only
  rw [if_neg (by simp [hh])]
  cases (runChecks env dd.device dd.session fuel dd.check_list
    (initChecks dd.check_list) (some c0) []).conn <;> rfl

/-- A connected, fully finalized audit task that still holds a live
connection ends normally; one whose connection was lost raises. -/
theorem audit_task_out_finalized (env : Env) (dd : DeviceData) (fuel : Nat)
    (c0 : Conn) (hc : obt_conn env dd.device dd.session = some c0)
    (hh : (runChecks env dd.device dd.session fuel dd.check_list
      (initChecks dd.check_list) (some c0) []).hung = false) :
    (audit_task env dd fuel).out ≠ TaskOut.hung := by
  rw [audit_task, hc]
  dsimp only
  rw [if_neg (by simp [hh])]
  cases (runChecks env dd.device dd.session fuel dd.check_list
    (initChecks dd.check_list) (some c0) []).conn <;> simp

/-! ## Claim theorems -/

/-- C1: for every roster entry with device id D submitted via
`start_thread_executor`, after `wait_for_completion` returns the aggregate
results map contains key D mapped to a Device Audit Result — and that entry
is exactly the one produced by D's own `audit_task`, so an exception raised
inside one device's task (modelled by `TaskOut.raised`) never prevents the
results of the other devices from being completed and recorded.  (Tasks
write disjoint keys of `self.results`; the fold in `runAll` is their
linearization.) -/
theorem C1_results_complete (env : Env) (roster : List DeviceData) (fuel : Nat)
    (dd : DeviceData) (hmem : dd ∈ roster)
    (hnd : (roster.map DeviceData.device).Nodup) :
    mapGet (runAll env roster fuel) dd.device = some (audit_task env dd fuel).result :=
  mapGet_foldAudits_mem env fuel dd roster [] hmem hnd

/-- C1 witness: a two-device roster in which device "A"'s task raises (its
cross-device target is unreachable, so the final disconnect throws) while
device "D"'s entry is still recorded with D's own result. -/
theorem C1_results_complete_wit :
    (ddD ∈ rosterW) ∧ ((rosterW.map DeviceData.device).Nodup) ∧
    ((audit_task envW1 ddA 4).out = TaskOut.raised) ∧
    mapGet (runAll envW1 rosterW 4) ddD.device = some (audit_task envW1 ddD 4).result :=
  ⟨by decide, by decide, by decide,
    C1_results_complete envW1 rosterW 4 ddD (by decide) (by decide)⟩

/-- C2 counterexample: `twoCycleCheck` cycles between two distinct requests
(k = 2 distinct requests, N = 2), so the claimed bounds are N + 1 = 3 and
2k + 1 = 5 round trips; but after 6 full round trips the drive loop is
still running (`fuelOut`), because the repeat-guard compares only with the
immediately preceding request and never fires on a 2-cycle. -/
theorem C2_two_cycle_cex :
    ((⟨"A", "show version", "hv"⟩ : Request) ≠ ⟨"A", "show clock", "hc"⟩) ∧
    (runCheckLoop envPlain "A" sessW twoCycleCheck 6 twoCycleCheck.init none
      (some (connW "A")) []).out.isFuelOut = true := by
  constructor
  · decide
  · decide

/-- C2 (amended): the repeat-guard stops a check whose new pending request
equals the one just consumed in (device, command, handler); in particular a
same-device check that re-issues the same request after every handler
invocation is stopped by the guard within two loop iterations (one round
trip).  No bound holds for checks that never immediately repeat: a check
cycling between two distinct requests never terminates
(see the counterexample). -/
theorem C2_repeat_guard (env : Env) (device : String) (session : Session)
    (c : CheckDef) (fuel : Nat) (st : c.St) (req : Request) (c0 : Conn) (raw : Raw)
    (hfuel : 2 ≤ fuel) (hdev : req.device = device)
    (hst : c.requests st = some req)
    (hconst : ∀ s r o, c.requests (c.handle s r o) = some req) :
    ∃ st2, (runCheckLoop env device session c fuel st none (some c0) raw).out =
      CheckOut.done st2 := by
  obtain ⟨k, rfl⟩ : ∃ k, fuel = k + 1 + 1 := ⟨fuel - 2, by omega⟩
  rw [runCheckLoop, hst]
  dsimp only
  rw [if_neg (show ¬ some req = none by simp)]
  cases hp : (processReq env device session req (some c0) raw).out with
  | none =>
    have hs := processReq_same_out_isSome env device session req c0 raw hdev
    rw [hp] at hs
    simp at hs
  | some out =>
    dsimp only
    rw [runCheckLoop, hconst st req out]
    dsimp only
    rw [if_pos rfl]
    exact ⟨c.handle st req out, rfl⟩

/-- C2 witness: a constant-request check is stopped by the repeat-guard at
fuel 2. -/
theorem C2_repeat_guard_wit :
    (2 ≤ 2) ∧
    ∃ st2, (runCheckLoop envPlain "A" sessW (constCheck ⟨"A", "show users", "h0"⟩) 2
      (constCheck ⟨"A", "show users", "h0"⟩).init none (some (connW "A")) []).out =
        CheckOut.done st2 :=
  ⟨by decide,
    C2_repeat_guard envPlain "A" sessW (constCheck ⟨"A", "show users", "h0"⟩) 2
      (constCheck ⟨"A", "show users", "h0"⟩).init ⟨"A", "show users", "h0"⟩
      (connW "A") [] (by decide) rfl rfl (fun _ _ _ => rfl)⟩

/-- C3: when `obt_conn` yields no connection, `audit_task` finalizes
immediately: login is `false`, every check of the device's list stays at
status 0 (NOT_RUN) with empty observation and comments, the overall status
is 2 (FAIL), the raw cache and facts are empty, and the event log shows the
failed connect only — no send, no handler, no gatherer ran. -/
theorem C3_conn_failure (env : Env) (dd : DeviceData) (fuel : Nat)
    (hc : obt_conn env dd.device dd.session = none) :
    audit_task env dd fuel =
      ⟨{ login := some false
         hostname := get_device_fqdn env dd.device none
         raw := []
         facts := []
         checks := initChecks dd.check_list
         status := some 2 },
        TaskOut.normal, [Ev.connect dd.device false]⟩ := by
  rw [audit_task, hc]
  rfl

/-- C3 witness: an unreachable device with one requested check. -/
theorem C3_conn_failure_wit :
    (obt_conn envC3 ddC3.device ddC3.session = none) ∧
    audit_task envC3 ddC3 3 =
      ⟨{ login := some false
         hostname := get_device_fqdn envC3 ddC3.device none
         raw := []
         facts := []
         checks := initChecks ddC3.check_list
         status := some 2 },
        TaskOut.normal, [Ev.connect ddC3.device false]⟩ :=
  ⟨by decide, C3_conn_failure envC3 ddC3 3 (by decide)⟩

/-- C4: for a device whose connection succeeds (and whose checks all
terminate), `audit_task` sets the overall status to 2 (FAIL) iff at least
one check result has status 2 (FAIL) or 5 (ERROR), and to 1 (PASS)
otherwise; statuses 0 (NOT_RUN), 3 (WARN), 4 (INFO) and 6 (INCONCLUSIVE)
never make the overall status FAIL, since the status is always exactly one
of `some 2` / `some 1` and `some 2` holds only under the iff. -/
theorem C4_overall_status (env : Env) (dd : DeviceData) (fuel : Nat)
    (hconn : env.connectOk dd.device = true)
    (hdone : (audit_task env dd fuel).out ≠ TaskOut.hung) :
    ((audit_task env dd fuel).result.status = some 2 ∨
      (audit_task env dd fuel).result.status = some 1) ∧
    ((audit_task env dd fuel).result.status = some 2 ↔
      ∃ p ∈ (audit_task env dd fuel).result.checks,
        p.2.status = 2 ∨ p.2.status = 5) := by
  have hc : obt_conn env dd.device dd.session =
      some ⟨dd.device, buildProxy dd.session⟩ := by
    rw [obt_conn, if_pos hconn]
  by_cases hh : (runChecks env dd.device dd.session fuel dd.check_list
      (initChecks dd.check_list) (some ⟨dd.device, buildProxy dd.session⟩) []).hung
  · exfalso
    apply hdone
    rw [audit_task, hc]
    dsimp only
    rw [if_pos hh]
  · have hres := audit_task_result_finalized env dd fuel _ hc (by simpa using hh)
    rw [hres]
    dsimp only
    constructor
    · by_cases haf : anyFail (runChecks env dd.device dd.session fuel dd.check_list
          (initChecks dd.check_list) (some ⟨dd.device, buildProxy dd.session⟩) []).checks
      · rw [if_pos haf]; left; rfl
      · rw [if_neg haf]; right; rfl
    · by_cases haf : anyFail (runChecks env dd.device dd.session fuel dd.check_list
          (initChecks dd.check_list) (some ⟨dd.device, buildProxy dd.session⟩) []).checks
      · rw [if_pos haf]
        constructor
        · intro _
          exact (anyFail_iff _).mp haf
        · intro _
          rfl
      · rw [if_neg haf]
        constructor
        · intro h
          exact absurd (Option.some.inj h) (by omega)
        · intro hex
          exact absurd ((anyFail_iff _).mpr hex) haf

/-- C4 witness: one passing check and one failing (status 2) check give an
overall FAIL, and the iff holds on this concrete run. -/
theorem C4_overall_status_wit :
    (envW4.connectOk ddE.device = true) ∧
    ((audit_task envW4 ddE 4).out ≠ TaskOut.hung) ∧
    (((audit_task envW4 ddE 4).result.status = some 2 ∨
       (audit_task envW4 ddE 4).result.status = some 1) ∧
     ((audit_task envW4 ddE 4).result.status = some 2 ↔
       ∃ p ∈ (audit_task envW4 ddE 4).result.checks,
         p.2.status = 2 ∨ p.2.status = 5)) :=
  ⟨by decide, by decide, C4_overall_status envW4 ddE 4 (by decide) (by decide)⟩

/-- C5 counterexample: with a session whose jumphost host is present but
whose jumphost username and password are `None` — so not all three jumphost
fields are present — `obt_conn`'s proxy is still built, refuting "a proxy is
built if and only if all three jumphost fields are present". -/
theorem C5_proxy_cex :
    sessC5.jumphost_username = none ∧ sessC5.jumphost_password = none ∧
    (buildProxy sessC5).isSome = true ∧
    ∀ c, obt_conn envPlain "A" sessC5 = some c → c.proxy.isSome = true := by
  refine ⟨by decide, by decide, by decide, ?_⟩
  intro c hc
  have : obt_conn envPlain "A" sessC5 = some ⟨"A", buildProxy sessC5⟩ := by decide
  rw [this] at hc
  have hce := Option.some.inj hc
  rw [← hce]
  decide

/-- C5 (amended): `obt_conn` builds a proxy configuration iff the jumphost
host field is truthy (present and non-empty); the jumphost username and
password are passed through into the proxy but never consulted by the
condition, and when the host is absent or empty the connection is opened
with no proxy. -/
theorem C5_proxy_iff_jumphost_ip (env : Env) (device : String) (s : Session)
    (c : Conn) (h : obt_conn env device s = some c) :
    (c.proxy.isSome = pyTruthy s.jumphost_ip) ∧
    (pyTruthy s.jumphost_ip = false → c.proxy = none) ∧
    (pyTruthy s.jumphost_ip = true →
      c.proxy = some ⟨s.jumphost_ip, s.jumphost_username, s.jumphost_password⟩) := by
  rw [obt_conn] at h
  by_cases hok : env.connectOk device = true
  · rw [if_pos hok] at h
    have hce := Option.some.inj h
    subst hce
    dsimp only
    rw [buildProxy]
    by_cases hj : pyTruthy s.jumphost_ip = true
    · rw [if_pos hj, hj]
      exact ⟨rfl, fun h2 => absurd h2 (by decide), fun _ => rfl⟩
    · have hj2 : pyTruthy s.jumphost_ip = false := by
        cases hpt : pyTruthy s.jumphost_ip
        · rfl
        · exact absurd hpt hj
      rw [if_neg hj, hj2]
      exact ⟨rfl, fun _ => rfl, fun h2 => absurd h2 (by decide)⟩
  · rw [if_neg hok] at h
    cases h

/-- C5 amended-claim witness: a reachable device with `sessW` (no jumphost
host) is connected with no proxy. -/
theorem C5_proxy_iff_jumphost_ip_wit :
    (obt_conn envPlain "A" sessW = some (connW "A")) ∧
    ((connW "A").proxy.isSome = pyTruthy sessW.jumphost_ip) ∧
    (pyTruthy sessW.jumphost_ip = false → (connW "A").proxy = none) ∧
    (pyTruthy sessW.jumphost_ip = true →
      (connW "A").proxy =
        some ⟨sessW.jumphost_ip, sessW.jumphost_username, sessW.jumphost_password⟩) :=
  ⟨by decide, C5_proxy_iff_jumphost_ip envPlain "A" sessW (connW "A") (by decide)⟩

/-- C6 counterexample: with captured output `""` (falsy), the cache test
`if raw.get(cmd):` misses even though the entry exists, so two checks each
requesting the same command on the audited device cause two sends — the
command is not "sent on the connection at most once". -/
theorem C6_empty_output_resend_cex :
    relSendCount "A" "A" "show version" (audit_task envC6 ddC6 5).log = 2 := by
  decide

/-- C6 (amended): within one device audit, provided every captured output
for the command is non-empty (truthy), the same-device command is sent at
most once, and every handler invocation for a same-device request with that
command receives exactly the final cached text — hence any two such checks
receive the same captured output.  (With a falsy captured output the cache
entry is treated as absent and the command is re-sent; see the
counterexample.) -/
theorem C6_same_device_cache (env : Env) (dd : DeviceData) (fuel : Nat)
    (cmd : String) (H : ∀ d, env.output d cmd ≠ "") :
    relSendCount dd.device dd.device cmd (audit_task env dd fuel).log ≤ 1 ∧
    (∀ o ∈ relOuts dd.device cmd (audit_task env dd fuel).log,
      rawGetTruthy (audit_task env dd fuel).result.raw cmd = some o) ∧
    (∀ o1 ∈ relOuts dd.device cmd (audit_task env dd fuel).log,
      ∀ o2 ∈ relOuts dd.device cmd (audit_task env dd fuel).log, o1 = o2) := by
  have hseg := segOK_audit env dd fuel dd.device cmd H
  rw [SegOK] at hseg
  have hK : relKey dd.device dd.device cmd = cmd := by
    rw [relKey, if_pos rfl]
  rw [hK] at hseg
  obtain ⟨_, hB, _, hD⟩ := hseg
  refine ⟨hB, hD, ?_⟩
  intro o1 h1 o2 h2
  have e1 := hD o1 h1
  have e2 := hD o2 h2
  rw [e1] at e2
  exact Option.some.inj e2

/-- C6 amended-claim witness: two checks sharing "show version" on device
"A" (plus two cross-device checks) with non-empty outputs. -/
theorem C6_same_device_cache_wit :
    (∀ d, envW6.output d "show version" ≠ "") ∧
    (relSendCount ddW6.device ddW6.device "show version" (audit_task envW6 ddW6 6).log ≤ 1 ∧
     (∀ o ∈ relOuts ddW6.device "show version" (audit_task envW6 ddW6 6).log,
       rawGetTruthy (audit_task envW6 ddW6 6).result.raw "show version" = some o) ∧
     (∀ o1 ∈ relOuts ddW6.device "show version" (audit_task envW6 ddW6 6).log,
       ∀ o2 ∈ relOuts ddW6.device "show version" (audit_task envW6 ddW6 6).log, o1 = o2)) :=
  ⟨fun _ => by show ("OUT" : String) ≠ ""; decide,
    C6_same_device_cache envW6 ddW6 6 "show version"
      (fun _ => by show ("OUT" : String) ≠ ""; decide)⟩

/-- C7 counterexample: the cross-device request (B, "show clock") captures
`""`; the second identical request misses the falsy cache entry and opens a
second connection to B and sends again — refuting "every later identical
cross-device request is served from the cache without opening another
connection". -/
theorem C7_empty_output_reconnect_cex :
    ((audit_task envC7 ddC7 5).log.filter
      (fun e => e == Ev.connect "B" true)).length = 2 ∧
    relSendCount "A" "B" "show clock" (audit_task envC7 ddC7 5).log = 2 := by
  constructor
  · decide
  · decide

/-- C7 (amended): a cross-device request whose key misses the cache closes
the current connection, opens a new connection to the target with the same
session credentials, sends the command, and caches the output under
"target:command"; and provided captured outputs for that command are
non-empty, the request family (target, command) executes at most one such
send in the whole device audit — every later identical request is served
from the cache — and every handler invocation for it receives the final
cached text.  (With a falsy captured output the entry is treated as absent
and a second connection is opened; see the counterexample.) -/
theorem C7_cross_device_cache (env : Env) (dd : DeviceData) (fuel : Nat)
    (t cmd : String) (ht : ¬ t = dd.device) (H : ∀ d, env.output d cmd ≠ "") :
    (∀ (req : Request) (c0 : Conn) (raw : Raw),
      req.device = t → req.command = cmd →
      rawGetTruthy raw (t ++ ":" ++ cmd) = none →
      env.connectOk t = true →
      processReq env dd.device dd.session req (some c0) raw =
        ⟨some (env.output t cmd), some ⟨t, buildProxy dd.session⟩,
          mapSet raw (t ++ ":" ++ cmd) (env.output t cmd),
          [Ev.disconnect c0.hostname, Ev.connect t true,
            Ev.send t cmd SendKind.crossDev]⟩) ∧
    relSendCount dd.device t cmd (audit_task env dd fuel).log ≤ 1 ∧
    (∀ o ∈ relOuts t cmd (audit_task env dd fuel).log,
      rawGetTruthy (audit_task env dd fuel).result.raw (t ++ ":" ++ cmd) = some o) := by
  have hseg := segOK_audit env dd fuel t cmd H
  rw [SegOK] at hseg
  have hK : relKey dd.device t cmd = t ++ ":" ++ cmd := by
    rw [relKey, if_neg ht]
  rw [hK] at hseg
  obtain ⟨_, hB, _, hD⟩ := hseg
  refine ⟨?_, hB, hD⟩
  intro req c0 raw h1 h2 hmiss hok
  subst h1
  subst h2
  exact processReq_cross_send env dd.device dd.session req raw c0 ht hmiss hok

/-- C7 amended-claim witness: two checks sharing the cross-device request
(B, "show clock") on device "A"'s audit with non-empty outputs. -/
theorem C7_cross_device_cache_wit :
    (¬ "B" = ddW6.device) ∧ (∀ d, envW6.output d "show clock" ≠ "") ∧
    ((∀ (req : Request) (c0 : Conn) (raw : Raw),
      req.device = "B" → req.command = "show clock" →
      rawGetTruthy raw ("B" ++ ":" ++ "show clock") = none →
      envW6.connectOk "B" = true →
      processReq envW6 ddW6.device ddW6.session req (some c0) raw =
        ⟨some (envW6.output "B" "show clock"), some ⟨"B", buildProxy ddW6.session⟩,
          mapSet raw ("B" ++ ":" ++ "show clock") (envW6.output "B" "show clock"),
          [Ev.disconnect c0.hostname, Ev.connect "B" true,
            Ev.send "B" "show clock" SendKind.crossDev]⟩) ∧
     relSendCount ddW6.device "B" "show clock" (audit_task envW6 ddW6 6).log ≤ 1 ∧
     (∀ o ∈ relOuts "B" "show clock" (audit_task envW6 ddW6 6).log,
       rawGetTruthy (audit_task envW6 ddW6 6).result.raw ("B" ++ ":" ++ "show clock") = some o)) :=
  ⟨by decide, fun _ => by show ("OUT" : String) ≠ ""; decide,
    C7_cross_device_cache envW6 ddW6 6 "B" "show clock" (by decide)
      (fun _ => by show ("OUT" : String) ≠ ""; decide)⟩

/-- C8 counterexample: device "A" connects, its check's cross-device target
"C" is unreachable, so the reconnect leaves the connection variable `None`;
the check's own exception is caught, but the final unguarded
`conn.disconnect()` then raises an `AttributeError` that escapes the task —
refuting "closing is best-effort and never raises past the task
boundary". -/
theorem C8_disconnect_raises_cex :
    (audit_task envC8 ddC8 5).result.login = some true ∧
    (audit_task envC8 ddC8 5).out = TaskOut.raised := by
  constructor
  · decide
  · decide

/-- C8 (amended): for a device whose connection was opened (and whose
checks all terminate), `audit_task` always reaches the closing call: either
its last event is a disconnect of the connection it still holds, or the
unguarded `disconnect()` itself raises (`TaskOut.raised`) because the
connection was lost to a failed cross-device reconnect.  The close is thus
unconditional but not best-effort: its failure propagates past the task
boundary (see the counterexample). -/
theorem C8_close_attempted (env : Env) (dd : DeviceData) (fuel : Nat)
    (hconn : env.connectOk dd.device = true)
    (hnothung : (audit_task env dd fuel).out ≠ TaskOut.hung) :
    (audit_task env dd fuel).out = TaskOut.raised ∨
    ∃ h2, (audit_task env dd fuel).log.getLast? = some (Ev.disconnect h2) := by
  have hc : obt_conn env dd.device dd.session =
      some ⟨dd.device, buildProxy dd.session⟩ := by
    rw [obt_conn, if_pos hconn]
  by_cases hh : (runChecks env dd.device dd.session fuel dd.check_list
      (initChecks dd.check_list) (some ⟨dd.device, buildProxy dd.session⟩) []).hung
  · exfalso
    apply hnothung
    rw [audit_task, hc]
    dsimp only
    rw [if_pos hh]
  · rw [audit_task, hc]
    dsimp only
    rw [if_neg hh]
    cases hcr : (runChecks env dd.device dd.session fuel dd.check_list
        (initChecks dd.check_list) (some ⟨dd.device, buildProxy dd.session⟩) []).conn with
    | none => left; rfl
    | some c1 =>
      right
      exact ⟨c1.hostname, List.getLast?_concat _⟩

/-- C8 amended-claim witness: an ordinary connected run ends with a
disconnect event as its final action. -/
theorem C8_close_attempted_wit :
    (envW4.connectOk ddE.device = true) ∧
    ((audit_task envW4 ddE 4).out ≠ TaskOut.hung) ∧
    ((audit_task envW4 ddE 4).out = TaskOut.raised ∨
      ∃ h2, (audit_task envW4 ddE 4).log.getLast? = some (Ev.disconnect h2)) :=
  ⟨by decide, by decide, C8_close_attempted envW4 ddE 4 (by decide) (by decide)⟩

/-- C9: `_get_device_fqdn`, branch by branch.  For a dotted-quad device id
(the code's `^\d{1,3}(\.\d{1,3}){3}$` shape): reverse DNS success returns
the looked-up name; on `herror` with a live connection it probes the running
configuration and returns `<prompt>.<domain>` when a domain-name line is
found and the bare self-reported prompt when not; on `herror` without a
connection it returns the literal id.  Every non-matching id passes through
unchanged. -/
theorem C9_hostname_resolution (env : Env) (device : String) (conn : Option Conn) :
    (isDottedQuad device = false → get_device_fqdn env device conn = device) ∧
    (∀ n, isDottedQuad device = true → env.dns device = some n →
      get_device_fqdn env device conn = n) ∧
    (∀ c dom, isDottedQuad device = true → env.dns device = none → conn = some c →
      findDomainName (env.output c.hostname domainProbeCmd) = some dom →
      get_device_fqdn env device conn = env.basePrompt c.hostname ++ "." ++ dom) ∧
    (∀ c, isDottedQuad device = true → env.dns device = none → conn = some c →
      findDomainName (env.output c.hostname domainProbeCmd) = none →
      get_device_fqdn env device conn = env.basePrompt c.hostname) ∧
    (isDottedQuad device = true → env.dns device = none → conn = none →
      get_device_fqdn env device conn = device) := by
  refine ⟨?_, ?_, ?_, ?_, ?_⟩
  · intro h
    simp [get_device_fqdn, h]
  · intro n h hdns
    simp [get_device_fqdn, h, hdns]
  · intro c dom h hdns hcn hdom
    subst hcn
    simp [get_device_fqdn, h, hdns, hdom]
  · intro c h hdns hcn hdom
    subst hcn
    simp [get_device_fqdn, h, hdns, hdom]
  · intro h hdns hcn
    subst hcn
    simp [get_device_fqdn, h, hdns]

/-- C9 witness: reverse DNS fails for 10.0.0.1, the running configuration
carries `ip domain-name corp.example`, and the composed name is
`sw1.corp.example`. -/
theorem C9_hostname_resolution_wit :
    (isDottedQuad "10.0.0.1" = true) ∧
    (envW9.dns "10.0.0.1" = none) ∧
    (findDomainName (envW9.output (connW "10.0.0.1").hostname domainProbeCmd) =
      some "corp.example") ∧
    get_device_fqdn envW9 "10.0.0.1" (some (connW "10.0.0.1")) =
      envW9.basePrompt (connW "10.0.0.1").hostname ++ "." ++ "corp.example" :=
  ⟨by decide, by decide, by decide,
    (C9_hostname_resolution envW9 "10.0.0.1" (some (connW "10.0.0.1"))).2.2.1
      (connW "10.0.0.1") "corp.example" (by decide) (by decide) rfl (by decide)⟩

/-- C10 counterexample: the cross-device request (B, "show clock") caches
"x" under the key "B:show clock"; the later same-device request whose
command text is literally "B:show clock" is then served from that
cross-device entry — its handler receives "x" although a direct execution
would return "y", and no same-device send happens.  A cached entry of one
kind IS reused to satisfy a request of the other kind. -/
theorem C10_cross_kind_reuse_cex :
    (Ev.handled ⟨"A", "B:show clock", "h"⟩ "x" ∈ (audit_task envC10 ddC10 5).log) ∧
    relSendCount "A" "A" "B:show clock" (audit_task envC10 ddC10 5).log = 0 ∧
    envC10.output "A" "B:show clock" = "y" := by
  refine ⟨by decide, by decide, by decide⟩

/-- C10 (amended): every executed request stores its output under exactly
one key — the bare command for a same-device request, "target:command" for
a cross-device one — leaving all other keys untouched; and for the same
command text the two kinds occupy distinct keys (`t ++ ":" ++ c ≠ c`).  The
key space is however not disjoint across kinds: a same-device command whose
text literally equals "target:command" shares the cross-device entry's key,
and such a cached entry of one kind can satisfy a request of the other kind
(see the counterexample). -/
theorem C10_key_scheme (env : Env) (device : String) (session : Session)
    (req : Request) (conn : Option Conn) (raw : Raw) :
    (∀ out, (processReq env device session req conn raw).out = some out →
      mapGet (processReq env device session req conn raw).raw (reqKey device req) = some out ∧
      ∀ k2, k2 ≠ reqKey device req →
        mapGet (processReq env device session req conn raw).raw k2 = mapGet raw k2) ∧
    (∀ tgt c2, tgt ++ ":" ++ c2 ≠ c2) := by
  constructor
  · intro out hout
    cases hhit : rawGetTruthy raw (reqKey device req) with
    | some v =>
      rw [processReq_hit env device session req conn raw v hhit] at hout ⊢
      have hv : v = out := Option.some.inj hout
      subst hv
      exact ⟨mapGet_mapSet_self raw _ v, fun k2 hk2 => mapGet_mapSet_ne raw _ k2 v hk2⟩
    | none =>
      cases conn with
      | none =>
        rw [processReq_miss_noconn env device session req raw hhit] at hout
        exact Option.noConfusion hout
      | some c0 =>
        by_cases hd : req.device = device
        · have hm : rawGetTruthy raw req.command = none := by
            rw [reqKey, if_pos hd] at hhit; exact hhit
          rw [processReq_same_miss env device session req raw c0 hd hm] at hout ⊢
          have hv : env.output c0.hostname req.command = out := Option.some.inj hout
          subst hv
          have hKr : reqKey device req = req.command := by rw [reqKey, if_pos hd]
          rw [hKr]
          exact ⟨mapGet_mapSet_self raw _ _, fun k2 hk2 => mapGet_mapSet_ne raw _ k2 _ hk2⟩
        · have hm : rawGetTruthy raw (req.device ++ ":" ++ req.command) = none := by
            rw [reqKey, if_neg hd] at hhit; exact hhit
          cases hko : env.connectOk req.device with
          | false =>
            rw [processReq_cross_connfail env device session req raw c0 hd hm hko] at hout
            exact Option.noConfusion hout
          | true =>
            rw [processReq_cross_send env device session req raw c0 hd hm hko] at hout ⊢
            have hv : env.output req.device req.command = out := Option.some.inj hout
            subst hv
            have hKr : reqKey device req = req.device ++ ":" ++ req.command := by
              rw [reqKey, if_neg hd]
            rw [hKr]
            exact ⟨mapGet_mapSet_self raw _ _, fun k2 hk2 => mapGet_mapSet_ne raw _ k2 _ hk2⟩
  · intro tgt c2 h
    have hlen := congrArg String.length h
    rw [String.length_append, String.length_append] at hlen
    have h1 : (":" : String).length = 1 := rfl
    rw [h1] at hlen
    omega

/-- C10 amended-claim witness: the concrete cross-device request
(B, "show clock") from the counterexample world stores exactly under
"B:show clock" and leaves other keys alone; and the two key forms differ
for the same command text. -/
theorem C10_key_scheme_wit :
    ((processReq envC10 "A" sessW ⟨"B", "show clock", "h"⟩ (some (connW "A")) []).out =
      some "x") ∧
    (mapGet (processReq envC10 "A" sessW ⟨"B", "show clock", "h"⟩ (some (connW "A")) []).raw
      (reqKey "A" ⟨"B", "show clock", "h"⟩) = some "x" ∧
     ∀ k2, k2 ≠ reqKey "A" ⟨"B", "show clock", "h"⟩ →
       mapGet (processReq envC10 "A" sessW ⟨"B", "show clock", "h"⟩ (some (connW "A")) []).raw k2 =
         mapGet ([] : Raw) k2) ∧
    ("B" ++ ":" ++ "show clock" ≠ "show clock") :=
  ⟨by decide,
   (C10_key_scheme envC10 "A" sessW ⟨"B", "show clock", "h"⟩ (some (connW "A")) []).1
     "x" (by decide),
   (C10_key_scheme envC10 "A" sessW ⟨"B", "show clock", "h"⟩ (some (connW "A")) []).2
     "B" "show clock"⟩

end NetAudit
